import Mathlib

/-!
Verification development for the `voltic` forecasting core
(`forecasting/forecast_engine.py` and `forecasting/services.py`).

The Python source is shallowly embedded: `Decimal`/float arithmetic is
modelled over `ℚ`, datetimes are modelled by an absolute hour count
(with a separate richer instant type for the sub-hour fields that the
code truncates away), the seeded pseudo-random stream is modelled as a
deterministic function of the seed, and database rows are explicit
lists threaded through the service operations.
-/

/-- Models a Python `datetime` as produced by `timezone.now()`: an
absolute count of whole hours since an epoch aligned with midnight,
plus the sub-hour fields that `replace(minute=0, second=0,
microsecond=0)` zeroes out. -/
structure PyInstant where
  absHour : ℕ
  minute : ℕ
  second : ℕ
  microsecond : ℕ
deriving DecidableEq, Repr

/-- Hour-of-day of an absolute hour count (models `datetime.hour`). -/
def hourOfDay (t : ℕ) : ℕ := t % 24

/-- Civil month (1..12) of a day count since 1970-01-01, by the
standard days-from-civil inversion (models `datetime.month`). -/
def monthOfDay (day : ℕ) : ℕ :=
  let z := day + 719468
  let doe := z % 146097
  let yoe := (doe - doe / 1460 + doe / 36524 - doe / 146096) / 365
  let doy := doe - (365 * yoe + yoe / 4 - yoe / 100)
  let mp := (5 * doy + 2) / 153
  if mp < 10 then mp + 3 else mp - 9

/-- Month of an absolute hour count. -/
def monthOf (t : ℕ) : ℕ := monthOfDay (t / 24)

/-- Models a raised Python exception carrying its message
(`ValueError` for the input errors of `RandomForecastModel.predict`). -/
inductive PyErr where
  | valueError (msg : String)
deriving DecidableEq, Repr

/-- Message of an exception, models `str(e)`. -/
def PyErr.msg : PyErr → String
  | .valueError m => m

/-- Round to the nearest integer, ties to even: the
`ROUND_HALF_EVEN` default of `Decimal.quantize`. -/
def roundHalfEven (q : ℚ) : ℤ :=
  if q - Int.floor q < 1 / 2 then Int.floor q
  else if 1 / 2 < q - Int.floor q then Int.floor q + 1
  else if 2 ∣ Int.floor q then Int.floor q else Int.floor q + 1

/-- Models quantization to the exponent 0.001, that is rounding to 3
decimal places, as `Decimal.quantize` does in the source. -/
def quantize3 (q : ℚ) : ℚ := (roundHalfEven (q * 1000) : ℚ) / 1000

/-- Models `math.sin(math.pi * daylight_hour / 12)` for the solar
diurnal shape, by a rational (Bhaskara) approximation of the half
sine on the 0..12 daylight range.  It agrees with the sine exactly at
the points the claims depend on: value 0 at both window edges (0 and
12) and value 1 at the peak (6), and is positive strictly inside the
window. -/
def sinHalfDay (x : ℚ) : ℚ :=
  16 * x * (12 - x) / (720 - 4 * x * (12 - x))

/-- Site row (`forecasting/models.py`): the fields the engine and the
read queries consume. -/
structure Site where
  id : ℕ
  name : String
  site_type : String
  capacity_mw : Option ℚ
deriving DecidableEq, Repr

/-- Models `site.capacity_mw or Decimal('10.0')` — Python falsiness:
both `None` and a zero capacity fall back to the 10.0 default. -/
def baseCapacity (site : Site) : ℚ :=
  match site.capacity_mw with
  | none => 10
  | some c => if c = 0 then 10 else c

/-- `ForecastPoint` named tuple of `forecast_engine.py`. -/
structure ForecastPoint where
  datetime : ℕ
  predicted_generation_mwh : ℚ
  confidence_interval_lower : Option ℚ
  confidence_interval_upper : Option ℚ
deriving DecidableEq, Repr

/-- `RandomForecastModel._generate_solar_prediction`.  Takes the
pseudo-random stream and the index of the next unconsumed draw;
returns the prediction together with the updated draw index (the
night-time early return consumes no draw). -/
def generateSolarPrediction (stream : ℕ → ℚ) (idx : ℕ) (base_capacity : ℚ)
    (t : ℕ) : ℚ × ℕ :=
  let hour_of_day := hourOfDay t
  if hour_of_day < 6 ∨ 18 < hour_of_day then (0, idx)
  else
    let daylight_hour : ℚ := (hour_of_day : ℚ) - 6
    let base_pattern := sinHalfDay daylight_hour
    let random_factor := 1 + (stream idx - 1 / 2) * (6 / 10)
    let generation := base_capacity * base_pattern * (25 / 100) * random_factor
    (max 0 (quantize3 generation), idx + 1)

/-- `RandomForecastModel._generate_wind_prediction`. -/
def generateWindPrediction (stream : ℕ → ℚ) (idx : ℕ) (base_capacity : ℚ)
    (t : ℕ) : ℚ × ℕ :=
  let base_factor : ℚ := 30 / 100
  let random_factor := 1 + (stream idx - 1 / 2) * 1
  let month := monthOf t
  let seasonal_factor : ℚ :=
    if month = 11 ∨ month = 12 ∨ month = 1 ∨ month = 2 ∨ month = 3 then 12 / 10 else 1
  (max 0 (quantize3 (base_capacity * base_factor * random_factor * seasonal_factor)),
    idx + 1)

/-- `RandomForecastModel._generate_generic_prediction`. -/
def generateGenericPrediction (stream : ℕ → ℚ) (idx : ℕ) (base_capacity : ℚ) : ℚ × ℕ :=
  (max 0 (quantize3 (base_capacity * (20 / 100) * stream idx)), idx + 1)

/-- Site-type dispatch inside `RandomForecastModel.predict`. -/
def generatePrediction (stream : ℕ → ℚ) (idx : ℕ) (site : Site) (t : ℕ) : ℚ × ℕ :=
  if site.site_type = "solar" then
    generateSolarPrediction stream idx (baseCapacity site) t
  else if site.site_type = "wind" then
    generateWindPrediction stream idx (baseCapacity site) t
  else
    generateGenericPrediction stream idx (baseCapacity site)

/-- Confidence-interval construction of `RandomForecastModel.predict`:
a ±20% band around the prediction, lower bound floored at zero. -/
def mkForecastPoint (t : ℕ) (predicted_mwh : ℚ) : ForecastPoint :=
  let confidence_range := predicted_mwh * (20 / 100)
  { datetime := t
    predicted_generation_mwh := predicted_mwh
    confidence_interval_lower := some (max 0 (predicted_mwh - confidence_range))
    confidence_interval_upper := some (predicted_mwh + confidence_range) }

/-- The per-hour loop of `RandomForecastModel.predict`: `n` points
remaining, `hour` the current offset from the start, `idx` the next
pseudo-random draw. -/
def predictPoints (stream : ℕ → ℚ) (site : Site) (start : ℕ) :
    ℕ → ℕ → ℕ → List ForecastPoint
  | 0, _, _ => []
  | n + 1, hour, idx =>
    let t := start + hour
    let step := generatePrediction stream idx site t
    mkForecastPoint t step.1 :: predictPoints stream site start n (hour + 1) step.2

/-- `RandomForecastModel.predict`: validates the site and the horizon,
then generates one point per hour starting at `now` truncated to the
top of the hour. -/
def predict (stream : ℕ → ℚ) (site : Option Site) (forecast_horizon : ℤ)
    (now : PyInstant) : Except PyErr (List ForecastPoint) :=
  match site with
  | none => .error (.valueError ("Site cannot be None"))
  | some s =>
    if forecast_horizon ≤ 0 then
      .error (.valueError ("Forecast horizon must be positive"))
    else
      .ok (predictPoints stream s now.absHour forecast_horizon.toNat 0 0)

/-- One step of the linear-congruential stand-in for CPython's seeded
generator. -/
def lcgStep (x : ℕ) : ℕ := (x * 1103515245 + 12345) % 2 ^ 31

/-- Iterated generator state. -/
def lcgState (seed : ℕ) : ℕ → ℕ
  | 0 => lcgStep (seed % 2 ^ 31)
  | n + 1 => lcgStep (lcgState seed n)

/-- Models the value stream of `random.Random(seed)`: a deterministic
function of the seed with values in the interval from 0 (inclusive) to
1 (exclusive).  The concrete generator is a linear-congruential
stand-in for the Mersenne Twister; the claims depend only on
determinism given the seed and on the range of the values. -/
def seededStream (seed : ℕ) (n : ℕ) : ℚ := (lcgState seed n : ℚ) / 2 ^ 31

/-- `RandomForecastModel`: its only state is the private random
source. -/
structure RandomForecastModel where
  stream : ℕ → ℚ

/-- `RandomForecastModel.__init__(seed)`: a given seed determines the
stream; with no seed the stream comes from ambient entropy, supplied
here as an explicit argument. -/
def RandomForecastModel.ofSeed (seed : Option ℕ) (entropy : ℕ → ℚ) :
    RandomForecastModel :=
  match seed with
  | some s => ⟨seededStream s⟩
  | none => ⟨entropy⟩

/-- The predict function a model instance exposes: the free `predict`
applied to the instance stream (models the bound method
`model.predict`). -/
def modelFnOf (m : RandomForecastModel) (site : Option Site)
    (forecast_horizon : ℤ) (now : PyInstant) : Except PyErr (List ForecastPoint) :=
  predict m.stream site forecast_horizon now

/-- Type of the predict capability stored in the registry: what a
`ForecastModel` instance contributes to the service layer. -/
def ModelFn : Type :=
  Option Site → ℤ → PyInstant → Except PyErr (List ForecastPoint)

/-- `ModelRegistry` of `forecast_engine.py`: a dictionary from
lowercased site-type keys to model instances plus a default model.
The stored value type is a parameter; the service layer instantiates
it with `ModelFn`. -/
structure ModelRegistry (α : Type) where
  models : String → Option α
  default_model : α

/-- `ModelRegistry.register_model`: stores under the lowercased key,
replacing any previous entry. -/
def register_model {α : Type} (r : ModelRegistry α) (site_type : String)
    (model : α) : ModelRegistry α :=
  { r with models := fun k => if k = site_type.toLower then some model else r.models k }

/-- `ModelRegistry.get_model`: looks up the lowercased key and falls
back to the default model when nothing is registered. -/
def get_model {α : Type} (r : ModelRegistry α) (site_type : String) : α :=
  (r.models site_type.toLower).getD r.default_model

/-- `ModelRegistry.__init__` for the module-global `model_registry`:
an unseeded default model plus unseeded registrations for solar and
wind.  The three entropy streams stand for the unseeded generators. -/
def defaultModelRegistry (e0 e1 e2 : ℕ → ℚ) : ModelRegistry ModelFn :=
  let base : ModelRegistry ModelFn :=
    { models := fun _ => none
      default_model := modelFnOf (RandomForecastModel.ofSeed none e0) }
  register_model
    (register_model base ("solar") (modelFnOf (RandomForecastModel.ofSeed none e1)))
    ("wind") (modelFnOf (RandomForecastModel.ofSeed none e2))

/-- Status choices of `ForecastJob`. -/
inductive JobStatus where
  | pending
  | running
  | completed
  | failed
deriving DecidableEq, Repr

/-- `ForecastJob` row. -/
structure JobRow where
  id : ℕ
  portfolio_id : ℕ
  status : JobStatus
  forecast_horizon : ℤ
  completed_at : Option PyInstant
  error_message : String
deriving DecidableEq, Repr

/-- `ForecastResult` row, with the site columns that
`select_related('site')` pulls in. -/
structure ResultRow where
  job_id : ℕ
  site : Site
  forecast_datetime : ℕ
  predicted_generation_mwh : ℚ
  confidence_interval_lower : Option ℚ
  confidence_interval_upper : Option ℚ
deriving DecidableEq, Repr

/-- `Portfolio` row together with its member sites. -/
structure Portfolio where
  id : ℕ
  name : String
  sites : List Site
deriving DecidableEq, Repr

/-- The relational store: portfolios, jobs and results. -/
structure DB where
  portfolios : List Portfolio
  jobs : List JobRow
  results : List ResultRow
deriving DecidableEq, Repr

/-- The typed service errors of `services.py`. -/
inductive ServiceError where
  | portfolioNotFound (msg : String)
  | emptyPortfolio (msg : String)
  | jobNotFound (msg : String)
  | serviceError (msg : String)
deriving DecidableEq, Repr

/-- `ForecastService.__init__`: the configured default horizon. -/
structure ForecastService where
  forecast_horizon : ℤ := 24
deriving DecidableEq, Repr

/-- Models `horizon = forecast_horizon or self.forecast_horizon`:
Python falsiness substitutes the default both for `None` and for 0. -/
def resolveHorizon (svc : ForecastService) (forecast_horizon : Option ℤ) : ℤ :=
  match forecast_horizon with
  | none => svc.forecast_horizon
  | some h => if h = 0 then svc.forecast_horizon else h

/-- A prediction point persisted as a `ForecastResult` row. -/
def toResultRow (jobId : ℕ) (site : Site) (p : ForecastPoint) : ResultRow :=
  { job_id := jobId
    site := site
    forecast_datetime := p.datetime
    predicted_generation_mwh := p.predicted_generation_mwh
    confidence_interval_lower := p.confidence_interval_lower
    confidence_interval_upper := p.confidence_interval_upper }

/-- The per-site loop of `_process_forecast_job`: resolve a model from
the registry, predict, and collect the rows to create; the first
exception aborts the whole loop. -/
def runSites (reg : ModelRegistry ModelFn) (jobId : ℕ) (forecast_horizon : ℤ)
    (now : PyInstant) : List Site → Except PyErr (List ResultRow)
  | [] => .ok []
  | site :: rest =>
    match get_model reg site.site_type (some site) forecast_horizon now with
    | .error e => .error e
    | .ok predictions =>
      match runSites reg jobId forecast_horizon now rest with
      | .error e => .error e
      | .ok more => .ok (predictions.map (toResultRow jobId site) ++ more)

/-- Update the job row with the given primary key. -/
def updateJobRow (db : DB) (jobId : ℕ) (f : JobRow → JobRow) : DB :=
  { db with jobs := db.jobs.map (fun j => if j.id = jobId then f j else j) }

/-- The failure path of `_process_forecast_job`: mark the job failed
with a completion timestamp and the exception message (a durable save
outside the aborted transaction). -/
def markFailed (db : DB) (jobId : ℕ) (now : PyInstant) (msg : String) : DB :=
  updateJobRow db jobId fun j =>
    { j with status := .failed, completed_at := some now, error_message := msg }

/-- The success path of `_process_forecast_job`: commit all result
rows and the completed status atomically. -/
def commitSuccess (db : DB) (jobId : ℕ) (rows : List ResultRow) (now : PyInstant) : DB :=
  let db' := updateJobRow db jobId fun j =>
    { j with status := .completed, completed_at := some now }
  { db' with results := db'.results ++ rows }

/-- `ForecastService._process_forecast_job`: set the job running, run
every site inside one transaction, then commit the results with the
completed status, or roll the results back and record the failure. -/
def processForecastJob (reg : ModelRegistry ModelFn) (db : DB) (jobId : ℕ)
    (portfolio : Portfolio) (forecast_horizon : ℤ) (now : PyInstant) :
    DB × Except ServiceError Unit :=
  let db1 := updateJobRow db jobId fun j => { j with status := .running }
  match portfolio.sites with
  | [] =>
    let msg := "Portfolio has no sites"
    (markFailed db1 jobId now msg,
      .error (.serviceError ("Forecast processing failed: " ++ msg)))
  | s :: ss =>
    match runSites reg jobId forecast_horizon now (s :: ss) with
    | .ok rows => (commitSuccess db1 jobId rows now, .ok ())
    | .error e =>
      (markFailed db1 jobId now e.msg,
        .error (.serviceError ("Forecast processing failed: " ++ e.msg)))

/-- `ForecastService.trigger_portfolio_forecast`: validate the
portfolio, create the pending job row, then synchronously process it.
`jobId` stands for the generated UUID primary key. -/
def trigger_portfolio_forecast (svc : ForecastService) (reg : ModelRegistry ModelFn)
    (db : DB) (portfolio_id : ℕ) (forecast_horizon : Option ℤ) (jobId : ℕ)
    (now : PyInstant) : DB × Except ServiceError JobRow :=
  match db.portfolios.find? (fun p => decide (p.id = portfolio_id)) with
  | none =>
    (db, .error (.portfolioNotFound
      ("Portfolio with ID " ++ toString portfolio_id ++ " not found")))
  | some portfolio =>
    if portfolio.sites.length = 0 then
      (db, .error (.emptyPortfolio
        ("Portfolio " ++ portfolio.name ++ " has no sites")))
    else
      let horizon := resolveHorizon svc forecast_horizon
      let job : JobRow :=
        { id := jobId
          portfolio_id := portfolio.id
          status := .pending
          forecast_horizon := horizon
          completed_at := none
          error_message := "" }
      let db1 : DB := { db with jobs := db.jobs ++ [job] }
      match processForecastJob reg db1 jobId portfolio horizon now with
      | (db2, .ok _) =>
        (db2, .ok ((db2.jobs.find? (fun j => decide (j.id = jobId))).getD job))
      | (db2, .error e) =>
        match e with
        | .serviceError m =>
          (db2, .error (.serviceError ("Failed to trigger forecast: " ++ m)))
        | other => (db2, .error other)

/-- `ForecastService.cancel_forecast_job`: flip a pending or running
job to failed with the cancellation marker; a no-op returning false on
terminal jobs. -/
def cancel_forecast_job (db : DB) (jobId : ℕ) (now : PyInstant) :
    DB × Except ServiceError Bool :=
  match db.jobs.find? (fun j => decide (j.id = jobId)) with
  | none =>
    (db, .error (.jobNotFound
      ("Forecast job with ID " ++ toString jobId ++ " not found")))
  | some job =>
    if job.status = .pending ∨ job.status = .running then
      (markFailed db jobId now ("Job cancelled by user"), .ok true)
    else
      (db, .ok false)

/-- Entry of a per-site forecast series in the read API: bounds fall
back to 0 when absent, as in the source float conversions. -/
structure ForecastEntry where
  forecast_datetime : ℕ
  predicted_generation_mwh : ℚ
  confidence_interval_lower : ℚ
  confidence_interval_upper : ℚ
deriving DecidableEq, Repr

/-- One element of `site_forecasts` in the portfolio results. -/
structure SiteSeriesOut where
  site_id : ℕ
  site_name : String
  site_type : String
  capacity_mw : ℚ
  forecasts : List ForecastEntry
deriving DecidableEq, Repr

/-- One element of `portfolio_totals`. -/
structure TotalsRow where
  forecast_datetime : ℕ
  total_predicted_mwh : ℚ
  total_confidence_lower : ℚ
  total_confidence_upper : ℚ
deriving DecidableEq, Repr

/-- Return value of `get_portfolio_forecast_results`. -/
structure PortfolioResultsOut where
  job_id : ℕ
  portfolio_id : ℕ
  portfolio_name : String
  forecast_generated_at : Option PyInstant
  site_count : ℕ
  total_capacity_mw : ℚ
  site_forecasts : List SiteSeriesOut
  portfolio_totals : List TotalsRow
deriving DecidableEq, Repr

/-- A result row rendered as a series entry (`forecast_data` in the
source), with `or 0` on the optional bounds. -/
def mkEntry (r : ResultRow) : ForecastEntry :=
  { forecast_datetime := r.forecast_datetime
    predicted_generation_mwh := r.predicted_generation_mwh
    confidence_interval_lower := r.confidence_interval_lower.getD 0
    confidence_interval_upper := r.confidence_interval_upper.getD 0 }

/-- Insert-or-update on an association list: models assignment into a
Python dict, which keeps insertion order for keys and updates values
in place. -/
def updAssoc {κ β : Type} [DecidableEq κ] :
    List (κ × β) → κ → (Option β → β) → List (κ × β)
  | [], k, f => [(k, f none)]
  | (k', v) :: rest, k, f =>
    if k' = k then (k', f (some v)) :: rest else (k', v) :: updAssoc rest k f

/-- Value lookup on an association list (dict read). -/
def lookupA {κ β : Type} [DecidableEq κ] (k : κ) : List (κ × β) → Option β
  | [] => none
  | (k', v) :: rest => if k' = k then some v else lookupA k rest

/-- Folding a row into the per-site dict: the first row of a site
fixes the site columns, every row appends one series entry. -/
def siteComb (o : Option (Site × List ForecastEntry)) (r : ResultRow) :
    Site × List ForecastEntry :=
  match o with
  | none => (r.site, [mkEntry r])
  | some (s, es) => (s, es ++ [mkEntry r])

/-- The `site_forecasts` dict of `get_portfolio_forecast_results`,
keyed by site name in first-appearance order. -/
def siteGroups (rows : List ResultRow) : List (String × (Site × List ForecastEntry)) :=
  rows.foldl (fun acc r => updAssoc acc r.site.name (fun o => siteComb o r)) []

/-- Folding a row into the per-timestamp totals: predicted value and
both bounds (absent bounds count as 0) are accumulated. -/
def totComb (o : Option (ℚ × ℚ × ℚ)) (r : ResultRow) : ℚ × ℚ × ℚ :=
  let t := o.getD (0, 0, 0)
  (t.1 + r.predicted_generation_mwh,
   t.2.1 + r.confidence_interval_lower.getD 0,
   t.2.2 + r.confidence_interval_upper.getD 0)

/-- The `total_by_datetime` dict, keyed by exact timestamp. -/
def dtBuckets (rows : List ResultRow) : List (ℕ × (ℚ × ℚ × ℚ)) :=
  rows.foldl (fun acc r => updAssoc acc r.forecast_datetime (fun o => totComb o r)) []

/-- One aggregated bucket rendered as a totals row. -/
def mkTotalsRow (e : ℕ × (ℚ × ℚ × ℚ)) : TotalsRow :=
  { forecast_datetime := e.1
    total_predicted_mwh := e.2.1
    total_confidence_lower := e.2.2.1
    total_confidence_upper := e.2.2.2 }

/-- The SQL ordering `ORDER BY site__name, forecast_datetime`. -/
def rowLe (a b : ResultRow) : Prop :=
  a.site.name < b.site.name ∨
    (a.site.name = b.site.name ∧ a.forecast_datetime ≤ b.forecast_datetime)

instance : DecidableRel rowLe := fun a b =>
  inferInstanceAs (Decidable (_ ∨ _))

instance : IsTotal ResultRow rowLe where
  total a b := by
    unfold rowLe
    rcases eq_or_ne a.site.name b.site.name with h | h
    · rcases Nat.le_total a.forecast_datetime b.forecast_datetime with h2 | h2
      · exact Or.inl (Or.inr ⟨h, h2⟩)
      · exact Or.inr (Or.inr ⟨h.symm, h2⟩)
    · rcases lt_or_gt_of_ne h with h2 | h2
      · exact Or.inl (Or.inl h2)
      · exact Or.inr (Or.inl h2)

instance : IsTrans ResultRow rowLe where
  trans a b c hab hbc := by
    unfold rowLe at *
    rcases hab with h1 | ⟨h1, h1d⟩ <;> rcases hbc with h2 | ⟨h2, h2d⟩
    · exact Or.inl (lt_trans h1 h2)
    · exact Or.inl (h2 ▸ h1)
    · exact Or.inl (h1 ▸ h2)
    · exact Or.inr ⟨h1.trans h2, le_trans h1d h2d⟩

/-- Ordering of the final `portfolio_totals` list (`sorted` by the
bucket timestamp). -/
def totLe (a b : TotalsRow) : Prop :=
  a.forecast_datetime ≤ b.forecast_datetime

instance : DecidableRel totLe := fun a b =>
  inferInstanceAs (Decidable (_ ≤ _))

instance : IsTotal TotalsRow totLe where
  total a b := Nat.le_total a.forecast_datetime b.forecast_datetime

instance : IsTrans TotalsRow totLe where
  trans _ _ _ hab hbc := le_trans hab hbc

/-- All result rows of one job (the `ForecastResult.objects.filter`
query set). -/
def resultsForJob (db : DB) (jobId : ℕ) : List ResultRow :=
  db.results.filter (fun r => decide (r.job_id = jobId))

/-- The job result set in SQL order (site name, then timestamp). -/
def sortedResultsForJob (db : DB) (jobId : ℕ) : List ResultRow :=
  List.insertionSort rowLe (resultsForJob db jobId)

/-- The aggregated portfolio series, sorted by timestamp. -/
def portfolioTotals (rows : List ResultRow) : List TotalsRow :=
  List.insertionSort totLe ((dtBuckets rows).map mkTotalsRow)

/-- One dict group rendered as a `site_forecasts` element. -/
def mkSiteSeries (g : String × (Site × List ForecastEntry)) : SiteSeriesOut :=
  { site_id := g.2.1.id
    site_name := g.1
    site_type := g.2.1.site_type
    capacity_mw := g.2.1.capacity_mw.getD 0
    forecasts := g.2.2 }

/-- Linear key of an instant, for the descending `completed_at` sort. -/
def instantKey (t : PyInstant) : ℕ :=
  ((t.absHour * 60 + t.minute) * 60 + t.second) * 1000000 + t.microsecond

/-- Sort key of a completion timestamp. -/
def completedKey (j : JobRow) : ℕ := (j.completed_at.map instantKey).getD 0

/-- The latest completed job of a portfolio
(`order_by('-completed_at').first()`). -/
def latestCompletedJob (db : DB) (portfolio_id : ℕ) : Option JobRow :=
  (db.jobs.filter (fun j =>
    decide (j.portfolio_id = portfolio_id) && decide (j.status = JobStatus.completed))).foldl
    (fun best j =>
      match best with
      | none => some j
      | some b => if completedKey b < completedKey j then some j else best) none

/-- Total capacity of a portfolio (`get_total_capacity`): sum of the
member capacities, with absent capacity contributing nothing. -/
def totalCapacity (p : Portfolio) : ℚ :=
  (p.sites.map (fun s => s.capacity_mw.getD 0)).sum

/-- Job selection inside `get_portfolio_forecast_results`: an explicit
job id is fetched scoped to the portfolio, otherwise the latest
completed job of the portfolio is used. -/
def selectJob (db : DB) (portfolio : Portfolio) (job_id : Option ℕ) :
    Except ServiceError JobRow :=
  match job_id with
  | some jid =>
    match db.jobs.find? (fun j =>
        decide (j.id = jid) && decide (j.portfolio_id = portfolio.id)) with
    | none => .error (.jobNotFound ("Forecast job not found"))
    | some j => .ok j
  | none =>
    match latestCompletedJob db portfolio.id with
    | none =>
      .error (.jobNotFound
        ("No completed forecast jobs found for portfolio " ++ toString portfolio.id))
    | some j => .ok j

/-- `ForecastService.get_portfolio_forecast_results`: resolve the
portfolio and the job, fetch the ordered result rows, group them per
site and aggregate them per timestamp. -/
def get_portfolio_forecast_results (db : DB) (portfolio_id : ℕ)
    (job_id : Option ℕ) : Except ServiceError PortfolioResultsOut :=
  match db.portfolios.find? (fun p => decide (p.id = portfolio_id)) with
  | none =>
    .error (.portfolioNotFound
      ("Portfolio with ID " ++ toString portfolio_id ++ " not found"))
  | some portfolio =>
    match selectJob db portfolio job_id with
    | .error e => .error e
    | .ok job =>
      match sortedResultsForJob db job.id with
      | [] =>
        .error (.jobNotFound ("No forecast results found for job " ++ toString job.id))
      | _ :: _ =>
        .ok
          { job_id := job.id
            portfolio_id := portfolio.id
            portfolio_name := portfolio.name
            forecast_generated_at := job.completed_at
            site_count := (siteGroups (sortedResultsForJob db job.id)).length
            total_capacity_mw := totalCapacity portfolio
            site_forecasts :=
              (siteGroups (sortedResultsForJob db job.id)).map mkSiteSeries
            portfolio_totals := portfolioTotals (sortedResultsForJob db job.id) }

/-- Sum of the predicted values of the rows at one timestamp. -/
def sumPredAt (rows : List ResultRow) (dt : ℕ) : ℚ :=
  ((rows.filter (fun r => decide (r.forecast_datetime = dt))).map
    (fun r => r.predicted_generation_mwh)).sum

/-- Sum of the lower confidence bounds (absent bounds count 0) of the
rows at one timestamp. -/
def sumLowAt (rows : List ResultRow) (dt : ℕ) : ℚ :=
  ((rows.filter (fun r => decide (r.forecast_datetime = dt))).map
    (fun r => r.confidence_interval_lower.getD 0)).sum

/-- Sum of the upper confidence bounds (absent bounds count 0) of the
rows at one timestamp. -/
def sumUpAt (rows : List ResultRow) (dt : ℕ) : ℚ :=
  ((rows.filter (fun r => decide (r.forecast_datetime = dt))).map
    (fun r => r.confidence_interval_upper.getD 0)).sum

/-- The `ForecastJob` lifecycle invariant: the completion timestamp is
null exactly on the non-terminal statuses. -/
def JobInv (j : JobRow) : Prop :=
  j.completed_at = none ↔ (j.status = .pending ∨ j.status = .running)

/-- Constant entropy stream used by concrete evaluations. -/
def stream0 : ℕ → ℚ := fun _ => 1 / 2

/-- A solar site fixture. -/
def solarW : Site := ⟨1, "A", "solar", some 10⟩

/-- A site of an unregistered type (hydro). -/
def hydroW : Site := ⟨2, "B", "hydro", some 10⟩

/-- A wind site fixture. -/
def windW : Site := ⟨3, "C", "wind", some 8⟩

/-- A clock fixture with nonzero sub-hour fields. -/
def nowW : PyInstant := ⟨5, 7, 8, 9⟩

/-- A one-site portfolio fixture. -/
def pfW : Portfolio := ⟨1, "P", [hydroW]⟩

/-- A store holding just the one-site portfolio. -/
def dbW0 : DB := ⟨[pfW], [], []⟩

/-- Service with the default horizon of 24. -/
def svcW : ForecastService := {}

/-- Registry whose every lookup yields a model that succeeds with no
points. -/
def regTriv : ModelRegistry ModelFn := ⟨fun _ => none, fun _ _ _ => .ok []⟩

/-- The module-global registry with all entropy fixed to `stream0`. -/
def regHalf : ModelRegistry ModelFn := defaultModelRegistry stream0 stream0 stream0

/-- Registry whose every lookup yields a model that raises. -/
def regFail : ModelRegistry ModelFn :=
  ⟨fun _ => none, fun _ _ _ => .error (.valueError ("boom"))⟩

/-- Result rows of one completed job over two sites at one timestamp. -/
def rowA : ResultRow := ⟨7, solarW, 100, 10, some 8, some 12⟩

/-- Second fixture row, other site, same timestamp. -/
def rowB : ResultRow := ⟨7, hydroW, 100, 5, some 4, some 6⟩

/-- A completed job fixture. -/
def jobW : JobRow := ⟨7, 1, .completed, 24, some nowW, ""⟩

/-- A two-site portfolio fixture. -/
def pfAB : Portfolio := ⟨1, "P", [solarW, hydroW]⟩

/-- Store fixture for the read-side aggregation (rows deliberately not
in site-name order). -/
def dbC4 : DB := ⟨[pfAB], [jobW], [rowB, rowA]⟩

/-- A pending job fixture. -/
def jobP : JobRow := ⟨3, 1, .pending, 2, none, ""⟩

/-- Store fixture holding the pending job. -/
def dbC3 : DB := ⟨[pfW], [jobP], []⟩

/-- Store fixture for cancellation. -/
def dbC8 : DB := ⟨[pfW], [⟨9, 1, .pending, 24, none, ""⟩], []⟩

/-- The concrete read-side output on `dbC4`. -/
def outC4 : PortfolioResultsOut :=
  { job_id := 7
    portfolio_id := 1
    portfolio_name := "P"
    forecast_generated_at := some nowW
    site_count := 2
    total_capacity_mw := 20
    site_forecasts :=
      [⟨1, "A", "solar", 10, [⟨100, 10, 8, 12⟩]⟩,
       ⟨2, "B", "hydro", 10, [⟨100, 5, 4, 6⟩]⟩]
    portfolio_totals := [⟨100, 15, 12, 18⟩] }

/-- An empty registry over a simple value type, for concrete registry
runs. -/
def regNat : ModelRegistry ℕ := ⟨fun _ => none, 0⟩

theorem quantize3_zero : quantize3 0 = 0 := by
  norm_num [quantize3, roundHalfEven]

theorem sinHalfDay_zero : sinHalfDay 0 = 0 := by
  norm_num [sinHalfDay]

theorem sinHalfDay_twelve : sinHalfDay 12 = 0 := by
  norm_num [sinHalfDay]

theorem predictPoints_length (stream : ℕ → ℚ) (s : Site) (start : ℕ) :
    ∀ (n hour idx : ℕ), (predictPoints stream s start n hour idx).length = n := by
  intro n
  induction n with
  | zero => intro hour idx; rfl
  | succ n ih => intro hour idx; simp [predictPoints, ih]

theorem predictPoints_map_datetime (stream : ℕ → ℚ) (s : Site) (start : ℕ) :
    ∀ (n hour idx : ℕ),
      (predictPoints stream s start n hour idx).map (fun p => p.datetime) =
        (List.range n).map (fun k => start + hour + k) := by
  intro n
  induction n with
  | zero => intro hour idx; simp [predictPoints]
  | succ n ih =>
    intro hour idx
    simp only [predictPoints, List.map_cons, mkForecastPoint]
    rw [ih (hour + 1), List.range_succ_eq_map]
    simp only [List.map_cons, List.map_map]
    have hfun : (fun k => start + (hour + 1) + k) =
        ((fun k => start + hour + k) ∘ Nat.succ) := by
      funext k
      simp only [Function.comp]
      omega
    rw [hfun]
    simp

theorem generateSolarPrediction_shape (stream : ℕ → ℚ) (idx : ℕ) (cap : ℚ) (t : ℕ) :
    ∃ q, (generateSolarPrediction stream idx cap t).1 = max 0 q := by
  unfold generateSolarPrediction
  try dsimp only
  by_cases h : hourOfDay t < 6 ∨ 18 < hourOfDay t
  · rw [if_pos h]
    exact ⟨0, by simp⟩
  · rw [if_neg h]
    exact ⟨_, rfl⟩

theorem generateWindPrediction_shape (stream : ℕ → ℚ) (idx : ℕ) (cap : ℚ) (t : ℕ) :
    ∃ q, (generateWindPrediction stream idx cap t).1 = max 0 q := by
  unfold generateWindPrediction
  exact ⟨_, rfl⟩

theorem generateGenericPrediction_shape (stream : ℕ → ℚ) (idx : ℕ) (cap : ℚ) :
    ∃ q, (generateGenericPrediction stream idx cap).1 = max 0 q := by
  exact ⟨_, rfl⟩

theorem generatePrediction_shape (stream : ℕ → ℚ) (idx : ℕ) (site : Site) (t : ℕ) :
    ∃ q, (generatePrediction stream idx site t).1 = max 0 q := by
  unfold generatePrediction
  by_cases hs : site.site_type = "solar"
  · rw [if_pos hs]
    exact generateSolarPrediction_shape stream idx (baseCapacity site) t
  · rw [if_neg hs]
    by_cases hw : site.site_type = "wind"
    · rw [if_pos hw]
      exact generateWindPrediction_shape stream idx (baseCapacity site) t
    · rw [if_neg hw]
      exact generateGenericPrediction_shape stream idx (baseCapacity site)

theorem predictPoints_shape (stream : ℕ → ℚ) (s : Site) (start : ℕ) :
    ∀ (n hour idx : ℕ), ∀ pt ∈ predictPoints stream s start n hour idx,
      ∃ t q, pt = mkForecastPoint t (max 0 q) := by
  intro n
  induction n with
  | zero => intro hour idx pt hpt; simp [predictPoints] at hpt
  | succ n ih =>
    intro hour idx pt hpt
    simp only [predictPoints, List.mem_cons] at hpt
    rcases hpt with h | h
    · obtain ⟨q, hq⟩ := generatePrediction_shape stream idx s (start + hour)
      exact ⟨start + hour, q, by rw [h, hq]⟩
    · exact ih _ _ pt h

theorem generateSolarPrediction_night (stream : ℕ → ℚ) (idx : ℕ) (cap : ℚ) (t : ℕ)
    (h : hourOfDay t < 6 ∨ 18 < hourOfDay t) :
    (generateSolarPrediction stream idx cap t).1 = 0 := by
  unfold generateSolarPrediction
  rw [if_pos h]

theorem generateSolarPrediction_boundary (stream : ℕ → ℚ) (idx : ℕ) (cap : ℚ) (t : ℕ)
    (h : hourOfDay t = 6 ∨ hourOfDay t = 18) :
    (generateSolarPrediction stream idx cap t).1 = 0 := by
  unfold generateSolarPrediction
  rw [if_neg (by omega)]
  rcases h with h6 | h18
  · simp only [h6]
    norm_num [sinHalfDay_zero, quantize3_zero]
  · simp only [h18]
    norm_num [sinHalfDay_twelve, quantize3_zero]

theorem predictPoints_solar (stream : ℕ → ℚ) (s : Site) (start : ℕ)
    (hsolar : s.site_type = "solar") :
    ∀ (n hour idx : ℕ), ∀ pt ∈ predictPoints stream s start n hour idx,
      ((hourOfDay pt.datetime < 6 ∨ 18 < hourOfDay pt.datetime) →
        pt.predicted_generation_mwh = 0) ∧
      ((hourOfDay pt.datetime = 6 ∨ hourOfDay pt.datetime = 18) →
        pt.predicted_generation_mwh = 0) := by
  intro n
  induction n with
  | zero => intro hour idx pt hpt; simp [predictPoints] at hpt
  | succ n ih =>
    intro hour idx pt hpt
    simp only [predictPoints, List.mem_cons] at hpt
    rcases hpt with h | h
    · have hdisp : (generatePrediction stream idx s (start + hour)).1 =
          (generateSolarPrediction stream idx (baseCapacity s) (start + hour)).1 := by
        unfold generatePrediction
        rw [if_pos hsolar]
      subst h
      simp only [mkForecastPoint]
      constructor
      · intro hw
        rw [hdisp]
        exact generateSolarPrediction_night _ _ _ _ hw
      · intro hb
        rw [hdisp]
        exact generateSolarPrediction_boundary _ _ _ _ hb
    · exact ih _ _ pt h

/-- Reduction of predict on a present site. -/
theorem predict_some (stream : ℕ → ℚ) (s : Site) (h : ℤ) (now : PyInstant) :
    predict stream (some s) h now =
      if h ≤ 0 then .error (.valueError ("Forecast horizon must be positive"))
      else .ok (predictPoints stream s now.absHour h.toNat 0 0) := rfl

/-- C2 (amended): for a solar site and any seed, every prediction
point whose local hour-of-day is strictly less than 6 or strictly
greater than 18 has predicted generation exactly 0, and at the
inclusive boundary hours 6 and 18 the half-sine formula also produces
predicted value 0 (the sine vanishes at both window edges, so the
formula path yields zero, not a nonzero value). -/
theorem claim_C2 (stream : ℕ → ℚ) (site : Site) (h : ℤ) (now : PyInstant)
    (pts : List ForecastPoint) (hsolar : site.site_type = "solar")
    (hok : predict stream (some site) h now = .ok pts) :
    ∀ pt ∈ pts,
      ((hourOfDay pt.datetime < 6 ∨ 18 < hourOfDay pt.datetime) →
        pt.predicted_generation_mwh = 0) ∧
      ((hourOfDay pt.datetime = 6 ∨ hourOfDay pt.datetime = 18) →
        pt.predicted_generation_mwh = 0) := by
  rw [predict_some] at hok
  by_cases hh : h ≤ 0
  · rw [if_pos hh] at hok
    exact absurd hok (by simp)
  · rw [if_neg hh] at hok
    have hpts : pts = predictPoints stream site now.absHour h.toNat 0 0 := by
      injection hok with h1
      exact h1.symm
    subst hpts
    exact predictPoints_solar stream site now.absHour hsolar h.toNat 0 0

/-- Witness for C2: concrete evaluation of the amended claim on a
solar site at night hours. -/
theorem claim_C2_witness :
    (mkForecastPoint 0 ((generatePrediction stream0 0 solarW 0).1)).predicted_generation_mwh
      = 0 := by
  have h := claim_C2 stream0 solarW 3 ⟨0, 30, 0, 0⟩
    (predictPoints stream0 solarW 0 3 0 0) rfl rfl
  refine (h _ ?_).1 ?_
  · rw [show predictPoints stream0 solarW 0 3 0 0 =
      mkForecastPoint 0 ((generatePrediction stream0 0 solarW 0).1) ::
        predictPoints stream0 solarW 0 2 1 ((generatePrediction stream0 0 solarW 0).2)
      from rfl]
    exact List.mem_cons_self _ _
  · exact Or.inl (by show hourOfDay 0 < 6; decide)

/-- Counterexample for C2 as stated: at the boundary hours 6 and 18
the predicted value is exactly 0, not nonzero — the half-sine formula
vanishes at the window edges. -/
theorem claim_C2_counterexample :
    ((predict stream0 (some solarW) 1 ⟨6, 15, 0, 0⟩).toOption.getD []).map
        (fun p => p.predicted_generation_mwh) =
      [(generateSolarPrediction stream0 0 (baseCapacity solarW) 6).1] ∧
    (generateSolarPrediction stream0 0 (baseCapacity solarW) 6).1 = 0 ∧
    ((predict stream0 (some solarW) 1 ⟨18, 15, 0, 0⟩).toOption.getD []).map
        (fun p => p.predicted_generation_mwh) =
      [(generateSolarPrediction stream0 0 (baseCapacity solarW) 18).1] ∧
    (generateSolarPrediction stream0 0 (baseCapacity solarW) 18).1 = 0 := by
  refine ⟨rfl, ?_, rfl, ?_⟩
  · exact generateSolarPrediction_boundary _ _ _ _ (Or.inl (by decide))
  · exact generateSolarPrediction_boundary _ _ _ _ (Or.inr (by decide))

/-- C5: for every site object and every horizon h greater than 0,
predict returns a list of exactly h points whose timestamps are
strictly increasing, exactly one hour apart, starting at the current
time truncated to the top of the hour; predict raises an input error
when the site is absent or when the horizon is nonpositive. -/
theorem claim_C5 (stream : ℕ → ℚ) (s : Site) (h : ℤ) (now : PyInstant) :
    (predict stream none h now = .error (.valueError ("Site cannot be None"))) ∧
    (h ≤ 0 →
      predict stream (some s) h now =
        .error (.valueError ("Forecast horizon must be positive"))) ∧
    (0 < h →
      predict stream (some s) h now =
        .ok (predictPoints stream s now.absHour h.toNat 0 0) ∧
      (predictPoints stream s now.absHour h.toNat 0 0).length = h.toNat ∧
      (predictPoints stream s now.absHour h.toNat 0 0).map (fun p => p.datetime) =
        (List.range h.toNat).map (fun k => now.absHour + k)) := by
  refine ⟨rfl, ?_, ?_⟩
  · intro hle
    rw [predict_some, if_pos hle]
  · intro hpos
    refine ⟨?_, predictPoints_length stream s now.absHour h.toNat 0 0, ?_⟩
    · rw [predict_some, if_neg (not_le.mpr hpos)]
    · have hm := predictPoints_map_datetime stream s now.absHour h.toNat 0 0
      simpa using hm

/-- Witness for C5 at horizon 3 and a clock with nonzero sub-hour
fields. -/
theorem claim_C5_witness :
    predict stream0 (some hydroW) 3 nowW =
      .ok (predictPoints stream0 hydroW 5 3 0 0) ∧
    (predictPoints stream0 hydroW 5 3 0 0).length = 3 ∧
    predict stream0 none 3 nowW = .error (.valueError ("Site cannot be None")) := by
  have h := claim_C5 stream0 hydroW 3 nowW
  have h3 := h.2.2 (by decide)
  exact ⟨h3.1, h3.2.1, h.1⟩

/-- C6: two RandomForecastModel instances constructed with the same
seed, applied to the same site, horizon and clock, return identical
output sequences, whatever ambient entropy each instance would
otherwise have drawn. -/
theorem claim_C6 (s : ℕ) (e1 e2 : ℕ → ℚ) (site : Option Site) (h : ℤ)
    (now : PyInstant) :
    predict (RandomForecastModel.ofSeed (some s) e1).stream site h now =
      predict (RandomForecastModel.ofSeed (some s) e2).stream site h now := rfl

/-- C7: every point returned by predict has a nonnegative prediction,
both confidence bounds present, a nonnegative lower bound, the
prediction between the bounds, and the upper bound equal to the
prediction times 1.2. -/
theorem claim_C7 (stream : ℕ → ℚ) (s : Site) (h : ℤ) (now : PyInstant)
    (pts : List ForecastPoint)
    (hok : predict stream (some s) h now = .ok pts) :
    ∀ pt ∈ pts,
      0 ≤ pt.predicted_generation_mwh ∧
      pt.confidence_interval_lower.isSome = true ∧
      pt.confidence_interval_upper.isSome = true ∧
      0 ≤ pt.confidence_interval_lower.getD 0 ∧
      pt.confidence_interval_lower.getD 0 ≤ pt.predicted_generation_mwh ∧
      pt.predicted_generation_mwh ≤ pt.confidence_interval_upper.getD 0 ∧
      pt.confidence_interval_upper.getD 0 =
        pt.predicted_generation_mwh * (12 / 10) := by
  intro pt hpt
  rw [predict_some] at hok
  by_cases hh : h ≤ 0
  · rw [if_pos hh] at hok
    exact absurd hok (by simp)
  · rw [if_neg hh] at hok
    have hpts : pts = predictPoints stream s now.absHour h.toNat 0 0 := by
      injection hok with h1
      exact h1.symm
    subst hpts
    obtain ⟨t, q, hq⟩ := predictPoints_shape stream s now.absHour h.toNat 0 0 pt hpt
    subst hq
    simp only [mkForecastPoint, Option.isSome_some, Option.getD_some]
    have hp : (0 : ℚ) ≤ max 0 q := le_max_left 0 q
    refine ⟨hp, by trivial, by trivial, le_max_left _ _, ?_, ?_, by ring⟩
    · refine max_le hp ?_
      nlinarith
    · nlinarith

/-- Witness for C7 on a concrete generic-site prediction. -/
theorem claim_C7_witness :
    0 ≤ (mkForecastPoint 5
        ((generatePrediction stream0 0 hydroW 5).1)).predicted_generation_mwh ∧
    (mkForecastPoint 5
        ((generatePrediction stream0 0 hydroW 5).1)).confidence_interval_lower.getD 0 ≤
      (mkForecastPoint 5
        ((generatePrediction stream0 0 hydroW 5).1)).predicted_generation_mwh ∧
    (mkForecastPoint 5
        ((generatePrediction stream0 0 hydroW 5).1)).confidence_interval_upper.getD 0 =
      (mkForecastPoint 5
        ((generatePrediction stream0 0 hydroW 5).1)).predicted_generation_mwh * (12 / 10) := by
  have h := claim_C7 stream0 hydroW 3 nowW (predictPoints stream0 hydroW 5 3 0 0) rfl
    (mkForecastPoint 5 ((generatePrediction stream0 0 hydroW 5).1)) ?hm
  case hm =>
    rw [show predictPoints stream0 hydroW 5 3 0 0 =
      mkForecastPoint 5 ((generatePrediction stream0 0 hydroW 5).1) ::
        predictPoints stream0 hydroW 5 2 1 ((generatePrediction stream0 0 hydroW 5).2)
      from rfl]
    exact List.mem_cons_self _ _
  exact ⟨h.1, h.2.2.2.2.1, h.2.2.2.2.2.2⟩

theorem lookupA_updAssoc_self {κ β : Type} [DecidableEq κ] (l : List (κ × β))
    (k : κ) (f : Option β → β) :
    lookupA k (updAssoc l k f) = some (f (lookupA k l)) := by
  induction l with
  | nil => simp [updAssoc, lookupA]
  | cons p rest ih =>
    obtain ⟨a, v⟩ := p
    by_cases h : a = k
    · subst h
      simp [updAssoc, lookupA]
    · simp [updAssoc, lookupA, h, ih]

theorem lookupA_updAssoc_ne {κ β : Type} [DecidableEq κ] (l : List (κ × β))
    (k k' : κ) (f : Option β → β) (hne : k ≠ k') :
    lookupA k' (updAssoc l k f) = lookupA k' l := by
  induction l with
  | nil => simp [updAssoc, lookupA, hne]
  | cons p rest ih =>
    obtain ⟨a, v⟩ := p
    by_cases h : a = k
    · subst h
      simp [updAssoc, lookupA, hne]
    · simp [updAssoc, lookupA, h, ih]

theorem keys_updAssoc {κ β : Type} [DecidableEq κ] (l : List (κ × β))
    (k : κ) (f : Option β → β) :
    (updAssoc l k f).map Prod.fst =
      if k ∈ l.map Prod.fst then l.map Prod.fst else l.map Prod.fst ++ [k] := by
  induction l with
  | nil => simp [updAssoc]
  | cons p rest ih =>
    obtain ⟨a, v⟩ := p
    by_cases h : a = k
    · subst h
      simp [updAssoc]
    · have hne : ¬(k = a) := fun hk => h hk.symm
      simp only [updAssoc, if_neg h, List.map_cons, List.mem_cons, ih]
      by_cases hmem : k ∈ rest.map Prod.fst
      · simp [hmem, hne]
      · simp [hmem, hne]

theorem nodup_keys_updAssoc {κ β : Type} [DecidableEq κ] (l : List (κ × β))
    (k : κ) (f : Option β → β) (h : (l.map Prod.fst).Nodup) :
    ((updAssoc l k f).map Prod.fst).Nodup := by
  rw [keys_updAssoc]
  by_cases hmem : k ∈ l.map Prod.fst
  · simpa [hmem] using h
  · simp only [hmem, if_false]
    simp [List.nodup_append, h, hmem]

theorem lookupA_accFold {κ β ρ : Type} [DecidableEq κ] (key : ρ → κ)
    (comb : Option β → ρ → β) :
    ∀ (rows : List ρ) (acc : List (κ × β)) (k : κ),
      lookupA k (rows.foldl (fun a r => updAssoc a (key r) (fun o => comb o r)) acc) =
        (rows.filter (fun r => decide (key r = k))).foldl
          (fun o r => some (comb o r)) (lookupA k acc) := by
  intro rows
  induction rows with
  | nil => intro acc k; rfl
  | cons r rest ih =>
    intro acc k
    simp only [List.foldl_cons, List.filter_cons]
    by_cases h : key r = k
    · subst h
      rw [ih, lookupA_updAssoc_self]
      simp
    · rw [ih, lookupA_updAssoc_ne _ _ _ _ h]
      simp [h]

theorem keys_accFold_sublist {κ β ρ : Type} [DecidableEq κ] (key : ρ → κ)
    (comb : Option β → ρ → β) :
    ∀ (rows : List ρ) (acc : List (κ × β)),
      ∃ extra,
        ((rows.foldl (fun a r => updAssoc a (key r) (fun o => comb o r)) acc).map
          Prod.fst) = acc.map Prod.fst ++ extra ∧
        extra.Sublist (rows.map key) := by
  intro rows
  induction rows with
  | nil => intro acc; exact ⟨[], by simp, by simp⟩
  | cons r rest ih =>
    intro acc
    obtain ⟨extra, he, hs⟩ := ih (updAssoc acc (key r) (fun o => comb o r))
    simp only [List.foldl_cons]
    by_cases hmem : key r ∈ acc.map Prod.fst
    · refine ⟨extra, ?_, hs.cons (key r)⟩
      rw [he, keys_updAssoc, if_pos hmem]
    · refine ⟨key r :: extra, ?_, hs.cons₂ (key r)⟩
      rw [he, keys_updAssoc, if_neg hmem]
      simp

theorem nodup_keys_accFold {κ β ρ : Type} [DecidableEq κ] (key : ρ → κ)
    (comb : Option β → ρ → β) :
    ∀ (rows : List ρ) (acc : List (κ × β)), (acc.map Prod.fst).Nodup →
      ((rows.foldl (fun a r => updAssoc a (key r) (fun o => comb o r)) acc).map
        Prod.fst).Nodup := by
  intro rows
  induction rows with
  | nil => intro acc h; exact h
  | cons r rest ih =>
    intro acc h
    simp only [List.foldl_cons]
    exact ih _ (nodup_keys_updAssoc _ _ _ h)

theorem lookupA_of_mem {κ β : Type} [DecidableEq κ] :
    ∀ (l : List (κ × β)), (l.map Prod.fst).Nodup →
      ∀ (k : κ) (v : β), (k, v) ∈ l → lookupA k l = some v := by
  intro l
  induction l with
  | nil => intro _ k v hm; simp at hm
  | cons p rest ih =>
    intro hnd k v hm
    obtain ⟨a, w⟩ := p
    simp only [List.map_cons, List.nodup_cons] at hnd
    rcases List.mem_cons.mp hm with h | h
    · have h1 : k = a := congrArg Prod.fst h
      have h2 : v = w := congrArg Prod.snd h
      subst h1
      subst h2
      simp [lookupA]
    · simp only [lookupA]
      rw [if_neg, ih hnd.2 k v h]
      intro hak
      subst hak
      exact hnd.1 (List.mem_map.mpr ⟨(a, v), h, rfl⟩)

theorem foldl_totComb_some :
    ∀ (rows : List ResultRow) (t : ℚ × ℚ × ℚ),
      rows.foldl (fun o r => some (totComb o r)) (some t) =
        some (t.1 + (rows.map (fun r => r.predicted_generation_mwh)).sum,
          t.2.1 + (rows.map (fun r => r.confidence_interval_lower.getD 0)).sum,
          t.2.2 + (rows.map (fun r => r.confidence_interval_upper.getD 0)).sum) := by
  intro rows
  induction rows with
  | nil => intro t; simp
  | cons r rest ih =>
    intro t
    obtain ⟨t1, t23⟩ := t
    obtain ⟨t2, t3⟩ := t23
    rw [List.foldl_cons]
    try dsimp only
    rw [show totComb (some (t1, t2, t3)) r =
        (t1 + r.predicted_generation_mwh,
          t2 + r.confidence_interval_lower.getD 0,
          t3 + r.confidence_interval_upper.getD 0) from rfl, ih]
    simp [add_assoc]

theorem foldl_totComb_none (r : ResultRow) (rest : List ResultRow) :
    (r :: rest).foldl (fun o r => some (totComb o r)) none =
      some (((r :: rest).map (fun r => r.predicted_generation_mwh)).sum,
        ((r :: rest).map (fun r => r.confidence_interval_lower.getD 0)).sum,
        ((r :: rest).map (fun r => r.confidence_interval_upper.getD 0)).sum) := by
  rw [List.foldl_cons]
  try dsimp only
  rw [show totComb none r =
      (0 + r.predicted_generation_mwh,
        0 + r.confidence_interval_lower.getD 0,
        0 + r.confidence_interval_upper.getD 0) from rfl, foldl_totComb_some]
  simp

theorem foldl_siteComb_some :
    ∀ (rows : List ResultRow) (s : Site) (es : List ForecastEntry),
      rows.foldl (fun o r => some (siteComb o r)) (some (s, es)) =
        some (s, es ++ rows.map mkEntry) := by
  intro rows
  induction rows with
  | nil => intro s es; simp
  | cons r rest ih =>
    intro s es
    rw [List.foldl_cons]
    try dsimp only
    rw [show siteComb (some (s, es)) r = (s, es ++ [mkEntry r]) from rfl, ih]
    simp

theorem foldl_siteComb_none (r : ResultRow) (rest : List ResultRow) :
    (r :: rest).foldl (fun o r => some (siteComb o r)) none =
      some (r.site, (r :: rest).map mkEntry) := by
  rw [List.foldl_cons]
  try dsimp only
  rw [show siteComb none r = (r.site, [mkEntry r]) from rfl, foldl_siteComb_some]
  simp

theorem sums_perm (l1 l2 : List ResultRow) (h : l1.Perm l2) (dt : ℕ) :
    sumPredAt l1 dt = sumPredAt l2 dt ∧ sumLowAt l1 dt = sumLowAt l2 dt ∧
      sumUpAt l1 dt = sumUpAt l2 dt := by
  refine ⟨?_, ?_, ?_⟩
  · simp only [sumPredAt]
    exact ((h.filter _).map _).sum_eq
  · simp only [sumLowAt]
    exact ((h.filter _).map _).sum_eq
  · simp only [sumUpAt]
    exact ((h.filter _).map _).sum_eq

theorem portfolioTotals_mem (rows : List ResultRow) :
    ∀ e ∈ portfolioTotals rows,
      e.total_predicted_mwh = sumPredAt rows e.forecast_datetime ∧
      e.total_confidence_lower = sumLowAt rows e.forecast_datetime ∧
      e.total_confidence_upper = sumUpAt rows e.forecast_datetime := by
  intro e he
  have hperm : (portfolioTotals rows).Perm ((dtBuckets rows).map mkTotalsRow) :=
    List.perm_insertionSort totLe _
  have he2 : e ∈ (dtBuckets rows).map mkTotalsRow := hperm.subset he
  obtain ⟨kt, hmem, hmk⟩ := List.mem_map.mp he2
  obtain ⟨k, t⟩ := kt
  have hnd : ((dtBuckets rows).map Prod.fst).Nodup := by
    unfold dtBuckets
    exact nodup_keys_accFold _ _ rows [] (by simp)
  have hl : lookupA k (dtBuckets rows) = some t := lookupA_of_mem _ hnd k t hmem
  have hacc := lookupA_accFold (fun r : ResultRow => r.forecast_datetime)
    (fun o (r : ResultRow) => totComb o r) rows [] k
  unfold dtBuckets at hl
  rw [hacc] at hl
  simp only [lookupA] at hl
  rcases hfilt : rows.filter (fun r => decide (r.forecast_datetime = k)) with _ | ⟨r, rest⟩
  · rw [hfilt] at hl
    simp at hl
  · rw [hfilt, foldl_totComb_none] at hl
    injection hl with ht
    subst hmk
    simp only [mkTotalsRow]
    rw [← ht]
    simp [sumPredAt, sumLowAt, sumUpAt, hfilt]

theorem siteGroups_mem (rows : List ResultRow) :
    ∀ g ∈ siteGroups rows,
      g.2.2 = (rows.filter (fun r => decide (r.site.name = g.1))).map mkEntry := by
  intro g hg
  have hnd : ((siteGroups rows).map Prod.fst).Nodup := by
    unfold siteGroups
    exact nodup_keys_accFold _ _ rows [] (by simp)
  have hl : lookupA g.1 (siteGroups rows) = some g.2 :=
    lookupA_of_mem _ hnd g.1 g.2 hg
  have hacc := lookupA_accFold (fun r : ResultRow => r.site.name)
    (fun o (r : ResultRow) => siteComb o r) rows [] g.1
  unfold siteGroups at hl
  rw [hacc] at hl
  simp only [lookupA] at hl
  rcases hfilt : rows.filter (fun r => decide (r.site.name = g.1)) with _ | ⟨r, rest⟩
  · rw [hfilt] at hl
    simp at hl
  · rw [hfilt, foldl_siteComb_none] at hl
    injection hl with hgv
    rw [hfilt, ← hgv]

theorem rowLe_name_le {a b : ResultRow} (h : rowLe a b) :
    a.site.name ≤ b.site.name := by
  rcases h with h | ⟨h, _⟩
  · exact le_of_lt h
  · exact le_of_eq h

theorem siteGroups_keys_sorted (rows : List ResultRow) (hs : rows.Pairwise rowLe) :
    ((siteGroups rows).map Prod.fst).Pairwise (fun a b => a ≤ b) := by
  obtain ⟨extra, he, hsub⟩ := keys_accFold_sublist
    (fun r : ResultRow => r.site.name) (fun o (r : ResultRow) => siteComb o r) rows []
  have hkeys : (siteGroups rows).map Prod.fst = extra := by
    unfold siteGroups
    simpa using he
  rw [hkeys]
  have hnames : (rows.map (fun r => r.site.name)).Pairwise (fun a b => a ≤ b) :=
    List.Pairwise.map _ (fun a b hab => rowLe_name_le hab) hs
  exact List.Pairwise.sublist hsub hnames

theorem siteGroups_entries_sorted (rows : List ResultRow) (hs : rows.Pairwise rowLe) :
    ∀ g ∈ siteGroups rows,
      g.2.2.Pairwise (fun a b => a.forecast_datetime ≤ b.forecast_datetime) := by
  intro g hg
  rw [siteGroups_mem rows g hg]
  have hpf : (rows.filter (fun r => decide (r.site.name = g.1))).Pairwise rowLe :=
    List.Pairwise.sublist (List.filter_sublist _) hs
  have hdt : (rows.filter (fun r => decide (r.site.name = g.1))).Pairwise
      (fun a b => a.forecast_datetime ≤ b.forecast_datetime) := by
    refine hpf.imp_of_mem ?_
    intro a b ha hb hab
    have hna : a.site.name = g.1 := by simpa using List.of_mem_filter ha
    have hnb : b.site.name = g.1 := by simpa using List.of_mem_filter hb
    rcases hab with h | ⟨_, hd⟩
    · rw [hna, hnb] at h
      exact absurd h (lt_irrefl _)
    · exact hd
  exact List.Pairwise.map _ (fun a b h => h) hdt

/-- C4: in the output of get_portfolio_forecast_results, every
portfolio-totals entry carries, for its timestamp, the sum over the
job result set of the predicted values and of each confidence bound
(absent bounds counting 0); the per-site series list is ordered by
site name, each series is exactly the ordered rows of that site, and
each series is ordered by timestamp. -/
theorem claim_C4 (db : DB) (pid : ℕ) (jid : Option ℕ) (out : PortfolioResultsOut)
    (hok : get_portfolio_forecast_results db pid jid = .ok out) :
    (∀ e ∈ out.portfolio_totals,
      e.total_predicted_mwh = sumPredAt (resultsForJob db out.job_id) e.forecast_datetime ∧
      e.total_confidence_lower = sumLowAt (resultsForJob db out.job_id) e.forecast_datetime ∧
      e.total_confidence_upper = sumUpAt (resultsForJob db out.job_id) e.forecast_datetime) ∧
    out.site_forecasts.Pairwise (fun a b => a.site_name ≤ b.site_name) ∧
    (∀ sf ∈ out.site_forecasts,
      sf.forecasts =
        ((sortedResultsForJob db out.job_id).filter
          (fun r => decide (r.site.name = sf.site_name))).map mkEntry ∧
      sf.forecasts.Pairwise (fun a b => a.forecast_datetime ≤ b.forecast_datetime)) := by
  unfold get_portfolio_forecast_results at hok
  rcases hpf : db.portfolios.find? (fun p => decide (p.id = pid)) with _ | portfolio
  · simp only [hpf] at hok
    exact absurd hok (by simp)
  · simp only [hpf] at hok
    rcases hsel : selectJob db portfolio jid with e | job
    · simp only [hsel] at hok
      exact absurd hok (by simp)
    · simp only [hsel] at hok
      rcases hrows : sortedResultsForJob db job.id with _ | ⟨r, rest⟩
      · simp only [hrows] at hok
        exact absurd hok (by simp)
      · simp only [hrows] at hok
        injection hok with h1
        subst h1
        dsimp only
        rw [hrows]
        have hperm : (r :: rest).Perm (resultsForJob db job.id) := by
          rw [← hrows]
          unfold sortedResultsForJob
          exact List.perm_insertionSort rowLe _
        have hs : (r :: rest).Pairwise rowLe := by
          rw [← hrows]
          unfold sortedResultsForJob
          exact List.sorted_insertionSort rowLe _
        refine ⟨?_, ?_, ?_⟩
        · intro e he
          obtain ⟨hp, hl, hu⟩ := portfolioTotals_mem _ e he
          obtain ⟨hp2, hl2, hu2⟩ := sums_perm _ _ hperm e.forecast_datetime
          exact ⟨hp.trans hp2, hl.trans hl2, hu.trans hu2⟩
        · have hkeys := siteGroups_keys_sorted _ hs
          rw [List.pairwise_map] at hkeys
          rw [List.pairwise_map]
          exact hkeys
        · intro sf hsf
          obtain ⟨g, hg, hmk⟩ := List.mem_map.mp hsf
          subst hmk
          exact ⟨siteGroups_mem _ g hg, siteGroups_entries_sorted _ hs g hg⟩

theorem rowLe_rowB_rowA_false : ¬ rowLe rowB rowA := by
  rintro (h | ⟨heq, _⟩)
  · have h2 : ("B" : String) < "A" := h
    rw [String.lt_iff_toList_lt] at h2
    exact absurd h2 (by decide)
  · exact absurd heq (by decide)

theorem sortedResultsForJob_dbC4 : sortedResultsForJob dbC4 7 = [rowA, rowB] := by
  unfold sortedResultsForJob resultsForJob
  rw [show dbC4.results.filter (fun r => decide (r.job_id = 7)) = [rowB, rowA] from rfl]
  simp only [List.insertionSort, List.orderedInsert]
  rw [if_neg rowLe_rowB_rowA_false]

theorem get_dbC4 : get_portfolio_forecast_results dbC4 1 (some 7) = .ok outC4 := by
  unfold get_portfolio_forecast_results
  rw [show dbC4.portfolios.find? (fun p => decide (p.id = 1)) = some pfAB from rfl]
  dsimp only
  rw [show selectJob dbC4 pfAB (some 7) = .ok jobW from rfl]
  dsimp only
  rw [show (jobW.id : ℕ) = 7 from rfl, sortedResultsForJob_dbC4]
  dsimp only
  simp [outC4, totalCapacity, pfAB, solarW, hydroW, portfolioTotals, dtBuckets,
    updAssoc, totComb, mkTotalsRow, rowA, rowB, List.insertionSort,
    List.orderedInsert, siteGroups, siteComb, mkSiteSeries, mkEntry, jobW, nowW]
  norm_num

/-- Witness for C4 on the two-site fixture: the portfolio total 15 at
the shared timestamp is the sum of the per-site values 10 and 5. -/
theorem claim_C4_witness :
    (⟨100, 15, 12, 18⟩ : TotalsRow).total_predicted_mwh =
      sumPredAt (resultsForJob dbC4 7) 100 := by
  have h := claim_C4 dbC4 1 (some 7) outC4 get_dbC4
  refine (h.1 ⟨100, 15, 12, 18⟩ ?_).1
  rw [show outC4.portfolio_totals = [⟨100, 15, 12, 18⟩] from rfl]
  exact List.mem_singleton.mpr rfl

/-- C10: for every portfolio, triggering with forecast_horizon = 0
behaves identically to omitting the horizon — the Python falsiness of
0 silently substitutes the service default, which is 24; a job is
created and no error is raised for the zero itself. -/
theorem claim_C10 (svc : ForecastService) (reg : ModelRegistry ModelFn) (db : DB)
    (pid : ℕ) (jobId : ℕ) (now : PyInstant) :
    trigger_portfolio_forecast svc reg db pid (some 0) jobId now =
      trigger_portfolio_forecast svc reg db pid none jobId now ∧
    ({} : ForecastService).forecast_horizon = 24 :=
  ⟨rfl, rfl⟩

theorem get_model_defaultRegistry (e0 e1 e2 : ℕ → ℚ) (t : String) :
    ∃ st : ℕ → ℚ,
      get_model (defaultModelRegistry e0 e1 e2) t =
        modelFnOf (RandomForecastModel.ofSeed none st) := by
  unfold defaultModelRegistry register_model get_model
  dsimp only
  by_cases h2 : t.toLower = ("wind" : String).toLower
  · rw [if_pos h2]
    exact ⟨e2, rfl⟩
  · rw [if_neg h2]
    by_cases h1 : t.toLower = ("solar" : String).toLower
    · rw [if_pos h1]
      exact ⟨e1, rfl⟩
    · rw [if_neg h1]
      exact ⟨e0, rfl⟩

theorem modelFnOf_nonpos (m : RandomForecastModel) (s : Site) (h : ℤ)
    (now : PyInstant) (hh : h ≤ 0) :
    modelFnOf m (some s) h now =
      .error (.valueError ("Forecast horizon must be positive")) := by
  unfold modelFnOf
  rw [predict_some, if_pos hh]

theorem runSites_nonpos (e0 e1 e2 : ℕ → ℚ) (jobId : ℕ) (h : ℤ) (now : PyInstant)
    (s : Site) (ss : List Site) (hh : h ≤ 0) :
    runSites (defaultModelRegistry e0 e1 e2) jobId h now (s :: ss) =
      .error (.valueError ("Forecast horizon must be positive")) := by
  obtain ⟨st, hst⟩ := get_model_defaultRegistry e0 e1 e2 s.site_type
  unfold runSites
  rw [hst, modelFnOf_nonpos _ _ _ _ hh]

theorem processForecastJob_error (reg : ModelRegistry ModelFn) (db : DB)
    (jobId : ℕ) (P : Portfolio) (h : ℤ) (now : PyInstant) (e : PyErr)
    (herr : runSites reg jobId h now P.sites = .error e) :
    processForecastJob reg db jobId P h now =
      (markFailed (updateJobRow db jobId fun j => { j with status := .running })
          jobId now e.msg,
        .error (.serviceError ("Forecast processing failed: " ++ e.msg))) := by
  unfold processForecastJob
  rcases hs : P.sites with _ | ⟨s, ss⟩
  · rw [hs] at herr
    exact absurd herr (by simp [runSites])
  · rw [hs] at herr
    dsimp only
    rw [herr]

theorem jobs_double_upd (l : List JobRow) (jobId : ℕ) (f g : JobRow → JobRow)
    (hfid : ∀ a, (f a).id = a.id) :
    (l.map (fun j => if j.id = jobId then f j else j)).map
        (fun j => if j.id = jobId then g j else j) =
      l.map (fun j => if j.id = jobId then g (f j) else j) := by
  rw [List.map_map]
  apply List.map_congr_left
  intro a _
  by_cases hid : a.id = jobId
  · simp [Function.comp, hid, hfid]
  · simp [Function.comp, hid]

/-- C3: if prediction raises for any site while a job is processed,
then processing commits no result rows, flips the job row to failed
with the completion timestamp set and the error message equal to the
exception message, and raises a service-level error to the caller. -/
theorem claim_C3 (reg : ModelRegistry ModelFn) (db : DB) (jobId : ℕ)
    (P : Portfolio) (h : ℤ) (now : PyInstant) (e : PyErr)
    (herr : runSites reg jobId h now P.sites = .error e) :
    (processForecastJob reg db jobId P h now).2 =
      .error (.serviceError ("Forecast processing failed: " ++ e.msg)) ∧
    (processForecastJob reg db jobId P h now).1.results = db.results ∧
    (processForecastJob reg db jobId P h now).1.jobs =
      db.jobs.map (fun j => if j.id = jobId then
        { j with
            status := JobStatus.failed
            completed_at := some now
            error_message := e.msg }
        else j) ∧
    (∀ j ∈ (processForecastJob reg db jobId P h now).1.jobs, j.id = jobId →
      j.status = .failed ∧ j.completed_at = some now ∧ j.error_message = e.msg) := by
  rw [processForecastJob_error reg db jobId P h now e herr]
  dsimp only
  have hjobs :
      (markFailed (updateJobRow db jobId fun j => { j with status := .running })
          jobId now e.msg).jobs =
        db.jobs.map (fun j => if j.id = jobId then
          { j with
              status := JobStatus.failed
              completed_at := some now
              error_message := e.msg }
          else j) := by
    unfold markFailed updateJobRow
    dsimp only
    exact jobs_double_upd db.jobs jobId _ _ (fun a => rfl)
  refine ⟨rfl, rfl, hjobs, ?_⟩
  rw [hjobs]
  intro j hj hjid
  obtain ⟨a, ha, rfl⟩ := List.mem_map.mp hj
  by_cases hid : a.id = jobId
  · simp [hid]
  · rw [if_neg hid] at hjid ⊢
    exact absurd hjid hid

/-- Witness for C3: a registry whose model raises makes processing
fail, commit nothing, and report the message. -/
theorem claim_C3_witness :
    (processForecastJob regFail dbC3 3 pfW 2 nowW).2 =
      .error (.serviceError ("Forecast processing failed: boom")) ∧
    (processForecastJob regFail dbC3 3 pfW 2 nowW).1.results = dbC3.results := by
  have h := claim_C3 regFail dbC3 3 pfW 2 nowW (.valueError ("boom")) rfl
  exact ⟨h.1, h.2.1⟩

/-- Counterexample to C1 as stated: triggering with horizon = 0 does
not fail with any error and a ForecastJob row is created — the zero
horizon is silently replaced by the service default. -/
theorem claim_C1_counterexample :
    (trigger_portfolio_forecast svcW regTriv dbW0 1 (some 0) 5 nowW).2.isOk = true ∧
    (trigger_portfolio_forecast svcW regTriv dbW0 1 (some 0) 5 nowW).1.jobs.length = 1 :=
  ⟨rfl, rfl⟩

theorem map_upd_fresh (l : List JobRow) (jobId : ℕ) (f : JobRow → JobRow)
    (hfresh : ∀ j ∈ l, j.id ≠ jobId) :
    l.map (fun j => if j.id = jobId then f j else j) = l := by
  induction l with
  | nil => rfl
  | cons a rest ih =>
    simp only [List.map_cons]
    rw [if_neg (hfresh a (List.mem_cons_self a rest)),
      ih (fun j hj => hfresh j (List.mem_cons_of_mem a hj))]

theorem find?_none_append {α : Type} (p : α → Bool) (l1 l2 : List α)
    (h : ∀ x ∈ l1, ¬ p x = true) :
    (l1 ++ l2).find? p = l2.find? p := by
  induction l1 with
  | nil => rfl
  | cons a rest ih =>
    rw [List.cons_append, List.find?_cons_of_neg]
    · exact ih (fun x hx => h x (List.mem_cons_of_mem a hx))
    · have := h a (List.mem_cons_self a rest)
      simpa using this

theorem find?_double_upd_append (l : List JobRow) (jobId : ℕ) (x : JobRow)
    (f g : JobRow → JobRow) (hfid : ∀ a, (f a).id = a.id)
    (hgid : ∀ a, (g a).id = a.id) (hx : x.id = jobId)
    (hfresh : ∀ j ∈ l, j.id ≠ jobId) :
    (((l ++ [x]).map (fun j => if j.id = jobId then f j else j)).map
      (fun j => if j.id = jobId then g j else j)).find?
        (fun j => decide (j.id = jobId)) = some (g (f x)) := by
  rw [jobs_double_upd _ _ _ _ hfid, List.map_append, map_upd_fresh l jobId _ hfresh]
  rw [find?_none_append _ _ _ (fun j hj => by simpa using hfresh j hj)]
  simp [hx, hgid, hfid]

/-- C1 (amended): triggering with horizon = 0 does not fail at all —
the default horizon is substituted and a job is created and processed
(see the counterexample); triggering with a negative horizon raises a
service-level error wrapping the model's invalid-horizon message, but
only after the Job row has been created — the row remains, marked
failed with that message and a completion timestamp. -/
theorem claim_C1 (e0 e1 e2 : ℕ → ℚ) (svc : ForecastService) (db : DB) (pid : ℕ)
    (P : Portfolio) (s : Site) (ss : List Site) (jobId : ℕ) (now : PyInstant)
    (h : ℤ) (hneg : h < 0)
    (hpf : db.portfolios.find? (fun p => decide (p.id = pid)) = some P)
    (hsites : P.sites = s :: ss)
    (hfresh : ∀ j ∈ db.jobs, j.id ≠ jobId) :
    (trigger_portfolio_forecast svc (defaultModelRegistry e0 e1 e2) db pid
        (some h) jobId now).2 =
      .error (.serviceError
        ("Failed to trigger forecast: Forecast processing failed: Forecast horizon must be positive")) ∧
    ((trigger_portfolio_forecast svc (defaultModelRegistry e0 e1 e2) db pid
        (some h) jobId now).1.jobs.find? (fun j => decide (j.id = jobId))) =
      some
        { id := jobId
          portfolio_id := P.id
          status := JobStatus.failed
          forecast_horizon := h
          completed_at := some now
          error_message := ("Forecast horizon must be positive") } := by
  have hres : resolveHorizon svc (some h) = h := by
    unfold resolveHorizon
    exact if_neg (by omega)
  have herr : runSites (defaultModelRegistry e0 e1 e2) jobId h now P.sites =
      .error (.valueError ("Forecast horizon must be positive")) := by
    rw [hsites]
    exact runSites_nonpos e0 e1 e2 jobId h now s ss (le_of_lt hneg)
  unfold trigger_portfolio_forecast
  rw [hpf]
  dsimp only
  rw [if_neg (by rw [hsites]; simp)]
  rw [hres]
  rw [processForecastJob_error _ _ _ _ _ _ _ herr]
  dsimp only
  refine ⟨rfl, ?_⟩
  unfold markFailed updateJobRow
  dsimp only
  exact find?_double_upd_append db.jobs jobId
    { id := jobId, portfolio_id := P.id, status := JobStatus.pending, forecast_horizon := h, completed_at := none, error_message := "" }
    (fun j => { j with status := JobStatus.running })
    (fun j => { j with status := JobStatus.failed, completed_at := some now, error_message := (PyErr.valueError ("Forecast horizon must be positive")).msg })
    (fun a => rfl) (fun a => rfl) rfl hfresh

/-- Witness for C1 (amended) at a concrete negative horizon. -/
theorem claim_C1_witness :
    (trigger_portfolio_forecast svcW (defaultModelRegistry stream0 stream0 stream0)
        dbW0 1 (some (-3)) 5 nowW).2 =
      .error (.serviceError
        ("Failed to trigger forecast: Forecast processing failed: Forecast horizon must be positive")) :=
  (claim_C1 stream0 stream0 stream0 svcW dbW0 1 pfW hydroW [] 5 nowW (-3)
    (by norm_num) rfl rfl (by simp [dbW0])).1

theorem map_single_upd_inv (l : List JobRow) (jobId : ℕ) (f : JobRow → JobRow)
    (hall : ∀ j ∈ l, JobInv j)
    (htarget : ∀ a ∈ l, a.id = jobId → JobInv (f a)) :
    ∀ j ∈ l.map (fun j => if j.id = jobId then f j else j), JobInv j := by
  intro j hj
  obtain ⟨a, ha, rfl⟩ := List.mem_map.mp hj
  by_cases hid : a.id = jobId
  · rw [if_pos hid]
    exact htarget a ha hid
  · rw [if_neg hid]
    exact hall a ha

theorem processForecastJob_inv (reg : ModelRegistry ModelFn) (db : DB) (jobId : ℕ)
    (P : Portfolio) (h : ℤ) (now : PyInstant)
    (hall : ∀ j ∈ db.jobs, JobInv j)
    (hpend : ∀ j ∈ db.jobs, j.id = jobId → j.completed_at = none) :
    ∀ j ∈ (processForecastJob reg db jobId P h now).1.jobs, JobInv j := by
  have hrun : ∀ j ∈ (updateJobRow db jobId fun j =>
      { j with status := JobStatus.running }).jobs, JobInv j := by
    unfold updateJobRow
    dsimp only
    refine map_single_upd_inv db.jobs jobId _ hall ?_
    intro a ha hid
    have hnone := hpend a ha hid
    simp [JobInv, hnone]
  have hrunpend : ∀ j ∈ (updateJobRow db jobId fun j =>
      { j with status := JobStatus.running }).jobs, j.id = jobId →
        j.completed_at = none := by
    unfold updateJobRow
    dsimp only
    intro j hj hid
    obtain ⟨a, ha, rfl⟩ := List.mem_map.mp hj
    by_cases hida : a.id = jobId
    · rw [if_pos hida]
      exact hpend a ha hida
    · rw [if_neg hida] at hid ⊢
      exact hpend a ha hid
  unfold processForecastJob
  rcases hs : P.sites with _ | ⟨s, ss⟩
  · dsimp only
    unfold markFailed updateJobRow
    dsimp only
    refine map_single_upd_inv _ jobId _ hrun ?_
    intro a _ _
    simp [JobInv]
  · dsimp only
    rcases hr : runSites reg jobId h now (s :: ss) with e | rows
    · dsimp only
      unfold markFailed updateJobRow
      dsimp only
      refine map_single_upd_inv _ jobId _ hrun ?_
      intro a _ _
      simp [JobInv]
    · dsimp only
      unfold commitSuccess updateJobRow
      dsimp only
      refine map_single_upd_inv _ jobId _ hrun ?_
      intro a _ _
      simp [JobInv]

theorem trigger_inv (svc : ForecastService) (reg : ModelRegistry ModelFn) (db : DB)
    (pid : ℕ) (fh : Option ℤ) (jobId : ℕ) (now : PyInstant)
    (hall : ∀ j ∈ db.jobs, JobInv j)
    (hfresh : ∀ j ∈ db.jobs, j.id ≠ jobId) :
    ∀ j ∈ (trigger_portfolio_forecast svc reg db pid fh jobId now).1.jobs,
      JobInv j := by
  unfold trigger_portfolio_forecast
  rcases hpf : db.portfolios.find? (fun p => decide (p.id = pid)) with _ | P
  · rw [hpf]
    dsimp only
    exact hall
  · rw [hpf]
    dsimp only
    by_cases hlen : P.sites.length = 0
    · rw [if_pos hlen]
      dsimp only
      exact hall
    · rw [if_neg hlen]
      have hall1 : ∀ j ∈ (db.jobs ++ [({ id := jobId, portfolio_id := P.id, status := JobStatus.pending, forecast_horizon := resolveHorizon svc fh, completed_at := none, error_message := "" } : JobRow)]), JobInv j := by
        intro j hj
        rcases List.mem_append.mp hj with hj | hj
        · exact hall j hj
        · rw [List.mem_singleton.mp hj]
          simp [JobInv]
      have hpend1 : ∀ j ∈ (db.jobs ++ [({ id := jobId, portfolio_id := P.id, status := JobStatus.pending, forecast_horizon := resolveHorizon svc fh, completed_at := none, error_message := "" } : JobRow)]), j.id = jobId → j.completed_at = none := by
        intro j hj hid
        rcases List.mem_append.mp hj with hj | hj
        · exact absurd hid (hfresh j hj)
        · rw [List.mem_singleton.mp hj]
      have hkey := processForecastJob_inv reg
        { db with jobs := db.jobs ++ [({ id := jobId, portfolio_id := P.id, status := JobStatus.pending, forecast_horizon := resolveHorizon svc fh, completed_at := none, error_message := "" } : JobRow)] }
        jobId P (resolveHorizon svc fh) now hall1 hpend1
      rcases hproc : processForecastJob reg
        { db with jobs := db.jobs ++ [({ id := jobId, portfolio_id := P.id, status := JobStatus.pending, forecast_horizon := resolveHorizon svc fh, completed_at := none, error_message := "" } : JobRow)] }
        jobId P (resolveHorizon svc fh) now with ⟨db2, r⟩
      rw [hproc] at hkey
      rcases r with e | u
      · dsimp only
        rcases e with m | m | m | m <;> exact hkey
      · dsimp only
        exact hkey

theorem cancel_inv (db : DB) (jobId : ℕ) (now : PyInstant)
    (hall : ∀ j ∈ db.jobs, JobInv j) :
    ∀ j ∈ (cancel_forecast_job db jobId now).1.jobs, JobInv j := by
  unfold cancel_forecast_job
  rcases hf : db.jobs.find? (fun j => decide (j.id = jobId)) with _ | job
  · rw [hf]
    dsimp only
    exact hall
  · rw [hf]
    dsimp only
    by_cases hst : job.status = .pending ∨ job.status = .running
    · rw [if_pos hst]
      dsimp only
      unfold markFailed updateJobRow
      dsimp only
      refine map_single_upd_inv _ jobId _ hall ?_
      intro a _ _
      simp [JobInv]
    · rw [if_neg hst]
      dsimp only
      exact hall

/-- C8: the ForecastJob invariant — completed_at is null exactly when
the status is pending or running — is preserved by every service
operation: job creation, successful processing and failed processing
(all inside trigger), and cancellation. -/
theorem claim_C8 :
    (∀ (svc : ForecastService) (reg : ModelRegistry ModelFn) (db : DB) (pid : ℕ)
      (fh : Option ℤ) (jobId : ℕ) (now : PyInstant),
      (∀ j ∈ db.jobs, JobInv j) → (∀ j ∈ db.jobs, j.id ≠ jobId) →
      ∀ j ∈ (trigger_portfolio_forecast svc reg db pid fh jobId now).1.jobs,
        JobInv j) ∧
    (∀ (db : DB) (jobId : ℕ) (now : PyInstant),
      (∀ j ∈ db.jobs, JobInv j) →
      ∀ j ∈ (cancel_forecast_job db jobId now).1.jobs, JobInv j) :=
  ⟨trigger_inv, cancel_inv⟩

/-- Witness for C8 on concrete runs of trigger and cancel. -/
theorem claim_C8_witness :
    JobInv (((trigger_portfolio_forecast svcW regTriv dbW0 1 none 5 nowW).1.jobs).headD
      ⟨0, 0, .pending, 0, none, ""⟩) ∧
    JobInv (((cancel_forecast_job dbC8 9 nowW).1.jobs).headD
      ⟨0, 0, .pending, 0, none, ""⟩) := by
  constructor
  · have h := claim_C8.1 svcW regTriv dbW0 1 none 5 nowW (by simp [dbW0])
      (by simp [dbW0])
    exact h _ (by decide)
  · have h := claim_C8.2 dbC8 9 nowW (by
      intro j hj
      simp only [dbC8] at hj
      rw [List.mem_singleton.mp hj]
      simp [JobInv])
    exact h _ (by decide)

/-- C9: after registering a model under a site-type key, get_model
returns that model for every key equal to it up to letter case, and
get_model returns the configured default model for any key with no
registered entry. -/
theorem claim_C9 (α : Type) (r : ModelRegistry α) (t t' : String) (m : α)
    (hcase : t'.toLower = t.toLower) :
    get_model (register_model r t m) t' = m ∧
    (∀ t2 : String, r.models t2.toLower = none →
      get_model r t2 = r.default_model) := by
  constructor
  · unfold get_model register_model
    dsimp only
    rw [hcase, if_pos rfl]
    rfl
  · intro t2 h2
    unfold get_model
    rw [h2]
    rfl

/-- Witness for C9: registering under Solar and querying SOLAR on a
concrete registry returns the registered value; an unregistered type
falls back to the default. -/
theorem claim_C9_witness :
    get_model (register_model regNat ("Solar") 5) ("SOLAR") = 5 ∧
    get_model regNat ("hydro") = 0 := by
  have h := claim_C9 ℕ regNat ("Solar") ("SOLAR") 5 (by
    show String.map Char.toLower ("SOLAR") = String.map Char.toLower ("Solar")
    rw [String.map_eq, String.map_eq]
    decide)
  exact ⟨h.1, h.2 ("hydro") rfl⟩
